import Mathlib

/-!
Verification development for the peripheral-device emulation layer of the
duckstation repository: the analog controller protocol state machine
(src/core/analog_controller.h) and the achievements no-op build
(src/core/achievements.h).

The data model (field names, enums, constants, defaults) is taken from
src/core/analog_controller.h. The behaviour of the member functions is
modelled from the specification (spec sections 3, 4.1, 4.2, 7, 8), because
only the class declaration of AnalogController is present in the sources;
each behavioural definition carries a doc comment saying so.
-/

set_option autoImplicit false

namespace AnalogController

/-- Axis enum from src/core/analog_controller.h lines 11-18:
LeftX, LeftY, RightX, RightY. -/
inductive Axis : Type
  | LeftX
  | LeftY
  | RightX
  | RightY
deriving DecidableEq, Repr, Fintype

/-- Button enum from src/core/analog_controller.h lines 20-40: 17 bindable
buttons, with Analog as the last one (index 16). -/
inductive Button : Type
  | Select
  | L3
  | R3
  | Start
  | Up
  | Right
  | Down
  | Left
  | L2
  | R2
  | L1
  | R1
  | Triangle
  | Circle
  | Cross
  | Square
  | Analog
deriving DecidableEq, Repr, Fintype

/-- Numeric value of each Button enumerator, as declared in the header. -/
def Button.toIndex : Button → Nat
  | .Select => 0
  | .L3 => 1
  | .R3 => 2
  | .Start => 3
  | .Up => 4
  | .Right => 5
  | .Down => 6
  | .Left => 7
  | .L2 => 8
  | .R2 => 9
  | .L1 => 10
  | .R1 => 11
  | .Triangle => 12
  | .Circle => 13
  | .Cross => 14
  | .Square => 15
  | .Analog => 16

/-- Command enum from src/core/analog_controller.h lines 84-96. -/
inductive Command : Type
  | Idle
  | Ready
  | ReadPad
  | ConfigModeSetMode
  | SetAnalogMode
  | GetAnalogMode
  | Command46
  | Command47
  | Command4C
  | GetSetRumble
deriving DecidableEq, Repr, Fintype

/-- The fixed 8-byte transmit and receive buffers of the header
(MAX_RESPONSE_LENGTH = 8), with explicit slots. -/
structure Buf8 : Type where
  b0 : Nat
  b1 : Nat
  b2 : Nat
  b3 : Nat
  b4 : Nat
  b5 : Nat
  b6 : Nat
  b7 : Nat
deriving DecidableEq, Repr

/-- All-zero buffer, the cleared value. -/
def Buf8.zero : Buf8 := ⟨0, 0, 0, 0, 0, 0, 0, 0⟩

/-- Read slot i of a buffer; out-of-range reads give the idle line value
0xFF. -/
def Buf8.get (b : Buf8) (i : Nat) : Nat :=
  match i with
  | 0 => b.b0
  | 1 => b.b1
  | 2 => b.b2
  | 3 => b.b3
  | 4 => b.b4
  | 5 => b.b5
  | 6 => b.b6
  | 7 => b.b7
  | _ => 0xFF

/-- Write slot i of a buffer; out-of-range writes are ignored. -/
def Buf8.set (b : Buf8) (i : Nat) (v : Nat) : Buf8 :=
  match i with
  | 0 => { b with b0 := v }
  | 1 => { b with b1 := v }
  | 2 => { b with b2 := v }
  | 3 => { b with b3 := v }
  | 4 => { b with b4 := v }
  | 5 => { b with b5 := v }
  | 6 => { b with b6 := v }
  | 7 => { b with b7 := v }
  | _ => b

/-- m_axis_state: one unsigned byte per stick axis, centre 0x80. -/
structure Axes : Type where
  leftX : Nat
  leftY : Nat
  rightX : Nat
  rightY : Nat
deriving DecidableEq, Repr

/-- Read one axis. -/
def Axes.get (a : Axes) : Axis → Nat
  | .LeftX => a.leftX
  | .LeftY => a.leftY
  | .RightX => a.rightX
  | .RightY => a.rightY

/-- Write one axis. -/
def Axes.set (a : Axes) (x : Axis) (v : Nat) : Axes :=
  match x with
  | .LeftX => { a with leftX := v }
  | .LeftY => { a with leftY := v }
  | .RightX => { a with rightX := v }
  | .RightY => { a with rightY := v }

/-- m_rumble_config: the 6 configuration-mode rumble mapping bytes. -/
structure RumbleConfig : Type where
  c0 : Nat
  c1 : Nat
  c2 : Nat
  c3 : Nat
  c4 : Nat
  c5 : Nat
deriving DecidableEq, Repr

/-- Write slot i of the rumble configuration; out-of-range writes are
ignored. -/
def RumbleConfig.set (c : RumbleConfig) (i : Nat) (v : Nat) : RumbleConfig :=
  match i with
  | 0 => { c with c0 := v }
  | 1 => { c with c1 := v }
  | 2 => { c with c2 := v }
  | 3 => { c with c3 := v }
  | 4 => { c with c4 := v }
  | 5 => { c with c5 := v }
  | _ => c

/-- m_motor_state: effective large/small rumble intensities
(LargeMotor = 0, SmallMotor = 1 in the header). -/
structure MotorState : Type where
  large : Nat
  small : Nat
deriving DecidableEq, Repr

/-- m_half_axis_state: the four merged half-axis magnitudes. -/
structure HalfAxes : Type where
  h0 : Nat
  h1 : Nat
  h2 : Nat
  h3 : Nat
deriving DecidableEq, Repr

/-- The instance state of AnalogController, fields and defaults from
src/core/analog_controller.h lines 98-158. The external configuration
values (axis scale, rumble bias, and the two boolean settings) are consumed
at construction and are not part of the serialized protocol state, so they
are not modelled here. -/
structure State : Type where
  command : Command
  commandStep : Nat
  rxBuffer : Buf8
  txBuffer : Buf8
  responseLength : Nat
  analogMode : Bool
  analogLocked : Bool
  dualshockEnabled : Bool
  configurationMode : Bool
  axisState : Axes
  rumbleConfig : RumbleConfig
  rumbleConfigLargeMotorIndex : Int
  rumbleConfigSmallMotorIndex : Int
  analogToggleQueued : Option Bool
  statusByte : Nat
  digitalModeExtraHalfwords : Nat
  buttonState : Nat
  motorState : MotorState
  halfAxisState : HalfAxes
  commandParam : Nat
  legacyRumbleUnlocked : Bool
deriving DecidableEq, Repr

/-- Modelled from the spec: the freshly constructed power-on state.
Defaults are the field initializers of the header (command Idle, step 0,
status byte 0x5A, button state 0xFFFF active-low all released, motor
indices -1 unconfigured); axes rest at the centre value 0x80 (spec section
3, idle centre). -/
def initialState : State where
  command := Command.Idle
  commandStep := 0
  rxBuffer := Buf8.zero
  txBuffer := Buf8.zero
  responseLength := 0
  analogMode := false
  analogLocked := false
  dualshockEnabled := false
  configurationMode := false
  axisState := ⟨0x80, 0x80, 0x80, 0x80⟩
  rumbleConfig := ⟨0, 0, 0, 0, 0, 0⟩
  rumbleConfigLargeMotorIndex := -1
  rumbleConfigSmallMotorIndex := -1
  analogToggleQueued := none
  statusByte := 0x5A
  digitalModeExtraHalfwords := 0
  buttonState := 0xFFFF
  motorState := ⟨0, 0⟩
  halfAxisState := ⟨0, 0, 0, 0⟩
  commandParam := 0
  legacyRumbleUnlocked := false

/-- Modelled from the spec: the low ID byte sent at step 0 of every
exchange (spec section 4.2 step 0) - 0xF3 while in configuration mode,
else 0x41 digital or 0x73 analog. The header declares GetModeID and
GetIDByte whose bodies are not in the sources. -/
def GetIDByte (s : State) : Nat :=
  if s.configurationMode then 0xF3
  else if s.analogMode then 0x73
  else 0x41

/-- Modelled from the spec: number of response halfwords excluding the
initial controller info halfword (header line 107-108; body not in the
sources). Matches the spec formula for the ReadPad total length
2 + 4 * analogMode + 2 * digitalModeExtraHalfwords (spec section 4.2). -/
def GetResponseNumHalfwords (s : State) : Nat :=
  1 + (if s.analogMode then 2 else 0) + s.digitalModeExtraHalfwords

/-- Modelled from the spec: number of payload bytes (after the two fixed
ID/status bytes) of each command class. ReadPad and non-configuration
ConfigModeSetMode use the halfword formula; every configuration sub-
protocol command exchanges 6 parameter bytes (spec section 4.2: six
parameter bytes for GetSetRumble; fixed-table and mode-reflection
responses for the other configuration commands). -/
def commandPayloadLength (s : State) : Command → Nat
  | Command.Idle => 0
  | Command.Ready => 0
  | Command.ReadPad => 2 * GetResponseNumHalfwords s
  | Command.ConfigModeSetMode =>
      if s.configurationMode then 6 else 2 * GetResponseNumHalfwords s
  | Command.SetAnalogMode => 6
  | Command.GetAnalogMode => 6
  | Command.Command46 => 6
  | Command.Command47 => 6
  | Command.Command4C => 6
  | Command.GetSetRumble => 6

/-- Low byte of the 16-bit active-low button state. -/
def buttonLow (s : State) : Nat := s.buttonState % 256

/-- High byte of the 16-bit active-low button state. -/
def buttonHigh (s : State) : Nat := s.buttonState / 256 % 256

/-- Modelled from the spec: decoding of the command byte received at step 0
(spec section 4.2). ReadPad and ConfigModeSetMode are always recognized;
the configuration sub-protocol commands are recognized only while in
configuration mode (spec section 7: precondition violations degrade to the
minimal response). -/
def decodeCommandByte (configurationMode : Bool) (b : Nat) : Option Command :=
  if b = 0x42 then some Command.ReadPad
  else if b = 0x43 then some Command.ConfigModeSetMode
  else if configurationMode then
    if b = 0x44 then some Command.SetAnalogMode
    else if b = 0x45 then some Command.GetAnalogMode
    else if b = 0x46 then some Command.Command46
    else if b = 0x47 then some Command.Command47
    else if b = 0x4C then some Command.Command4C
    else if b = 0x4D then some Command.GetSetRumble
    else none
  else none

/-- Modelled from the spec: the transmit buffer prepared when a command is
decoded. Slot 0 holds the ID byte and slot 1 the constant status byte;
ReadPad (and ConfigModeSetMode outside configuration mode) carry the
active-low button state low byte then high byte followed by the axis bytes
in order RightX, RightY, LeftX, LeftY (spec section 4.2); GetAnalogMode
reflects the current mode inside fixed padding bytes; GetSetRumble echoes
the current rumble configuration; the remaining commands start from zero
padding that the parameter sub-index may overwrite. -/
def initialTxBuffer (s : State) : Command → Buf8
  | Command.ReadPad =>
      ⟨GetIDByte s, s.statusByte, buttonLow s, buttonHigh s,
       s.axisState.rightX, s.axisState.rightY, s.axisState.leftX, s.axisState.leftY⟩
  | Command.ConfigModeSetMode =>
      if s.configurationMode then
        ⟨GetIDByte s, s.statusByte, 0, 0, 0, 0, 0, 0⟩
      else
        ⟨GetIDByte s, s.statusByte, buttonLow s, buttonHigh s,
         s.axisState.rightX, s.axisState.rightY, s.axisState.leftX, s.axisState.leftY⟩
  | Command.GetAnalogMode =>
      ⟨GetIDByte s, s.statusByte, 0x01, 0x02, (if s.analogMode then 0x01 else 0x00),
       0x02, 0x01, 0x00⟩
  | Command.GetSetRumble =>
      ⟨GetIDByte s, s.statusByte, s.rumbleConfig.c0, s.rumbleConfig.c1,
       s.rumbleConfig.c2, s.rumbleConfig.c3, s.rumbleConfig.c4, s.rumbleConfig.c5⟩
  | _ =>
      ⟨GetIDByte s, s.statusByte, 0, 0, 0, 0, 0, 0⟩

/-- Modelled from the spec: the state mutation performed when a parameter
byte arrives at the current step of the in-progress command (spec section
4.2 subsequent steps). ConfigModeSetMode enters or exits configuration
mode on its first parameter byte, and exiting commits a staged
analogToggleQueued value into analogMode (two-phase apply); SetAnalogMode
stages 0x01/0x00 into analogToggleQueued; Command46/47/4C select their
fixed lookup-table response bytes from the parameter sub-index;
GetSetRumble stores each of its 6 parameter bytes into the rumble
configuration, the sentinels 0x00/0x01 assigning the large/small motor
index. -/
def stepEffect (s : State) (dataIn : Nat) : State :=
  match s.command with
  | Command.ConfigModeSetMode =>
      if s.commandStep = 2 then
        if dataIn ≠ 0 then { s with configurationMode := true }
        else
          match s.analogToggleQueued with
          | some v =>
              { s with configurationMode := false, analogMode := v,
                       analogToggleQueued := none }
          | none => { s with configurationMode := false }
      else s
  | Command.SetAnalogMode =>
      if s.commandStep = 2 then
        if dataIn ≤ 1 then { s with analogToggleQueued := some (dataIn == 1) }
        else s
      else s
  | Command.Command46 =>
      if s.commandStep = 2 then
        if dataIn = 0 then
          { s with txBuffer := ((((s.txBuffer.set 4 0x01).set 5 0x02).set 6 0x00).set 7 0x0A) }
        else if dataIn = 1 then
          { s with txBuffer := ((((s.txBuffer.set 4 0x01).set 5 0x01).set 6 0x01).set 7 0x14) }
        else s
      else s
  | Command.Command47 =>
      if s.commandStep = 2 then
        if dataIn = 0 then
          { s with txBuffer := ((((s.txBuffer.set 4 0x02).set 5 0x00).set 6 0x01).set 7 0x00) }
        else s
      else s
  | Command.Command4C =>
      if s.commandStep = 2 then
        if dataIn = 0 then { s with txBuffer := s.txBuffer.set 5 0x04 }
        else if dataIn = 1 then { s with txBuffer := s.txBuffer.set 5 0x07 }
        else s
      else s
  | Command.GetSetRumble =>
      if 2 ≤ s.commandStep then
        if s.commandStep ≤ 7 then
          let i := s.commandStep - 2
          let s1 := { s with rumbleConfig := s.rumbleConfig.set i dataIn }
          if dataIn = 0 then { s1 with rumbleConfigLargeMotorIndex := Int.ofNat i }
          else if dataIn = 1 then { s1 with rumbleConfigSmallMotorIndex := Int.ofNat i }
          else s1
        else s
      else s
  | _ => s

/-- Modelled from the spec: the per-clock half-duplex byte exchange
Transfer(dataIn) giving (new state, dataOut, moreBytesExpected) (spec
sections 4.1 and 4.2). In Idle the device waits for selection; in Ready
the incoming byte is the command code, answered immediately with the low
ID byte; afterwards each step emits the prepared transmit byte, applies
the parameter effect, and reports whether further response bytes are
pending. Unrecognized command bytes still produce the well-formed two-byte
ID/status response. The command cursor is cleared only by
ResetTransferState on deselect (spec section 3 invariants). -/
def Transfer (s : State) (dataIn : Nat) : State × Nat × Bool :=
  let s0 := { s with rxBuffer := s.rxBuffer.set s.commandStep dataIn }
  match s0.command with
  | Command.Idle =>
      if dataIn = 0x01 then ({ s0 with command := Command.Ready }, 0xFF, true)
      else (s0, 0xFF, false)
  | Command.Ready =>
      if s0.commandStep = 0 then
        match decodeCommandByte s0.configurationMode dataIn with
        | some c =>
            ({ s0 with command := c, commandStep := 1,
                       responseLength := 2 + commandPayloadLength s0 c,
                       txBuffer := initialTxBuffer s0 c },
             GetIDByte s0, true)
        | none =>
            ({ s0 with commandStep := 1, responseLength := 2,
                       txBuffer := ⟨GetIDByte s0, s0.statusByte, 0, 0, 0, 0, 0, 0⟩ },
             GetIDByte s0, true)
      else
        if s0.commandStep < s0.responseLength then
          let out := s0.txBuffer.get s0.commandStep
          let s1 := stepEffect s0 dataIn
          let s2 := { s1 with commandStep := s1.commandStep + 1 }
          (s2, out, s2.commandStep < s2.responseLength)
        else (s0, 0xFF, false)
  | _ =>
      if s0.commandStep < s0.responseLength then
        let out := s0.txBuffer.get s0.commandStep
        let s1 := stepEffect s0 dataIn
        let s2 := { s1 with commandStep := s1.commandStep + 1 }
        (s2, out, s2.commandStep < s2.responseLength)
      else (s0, 0xFF, false)

/-- Modelled from the spec: ResetTransferState, invoked when the bus
deselects the device - clears command, commandStep, the buffers and the
response length; does not touch button, axis or mode state (spec section
4.1). -/
def ResetTransferState (s : State) : State :=
  { s with command := Command.Idle, commandStep := 0,
           rxBuffer := Buf8.zero, txBuffer := Buf8.zero, responseLength := 0 }

/-- Modelled from the spec: the Analog button toggle path - toggles
analogMode unless the mode is locked (spec sections 3 and 4.2; header line
114 declares ProcessAnalogModeToggle, body not in the sources). -/
def ProcessAnalogModeToggle (s : State) : State :=
  if s.analogLocked then s else { s with analogMode := ¬ s.analogMode }

/-- Modelled from the spec: SetBindState applies one normalized input
value to internal state (spec section 4.1). Binding indices 0-15 set or
clear the corresponding active-low button bit; index 16 is the Analog
toggle binding, routed through the mode-toggle path instead of the button
mask; other indices are outside the modelled fragment and are ignored. -/
def SetBindState (s : State) (index : Nat) (value : Bool) : State :=
  if index = 16 then
    if value then ProcessAnalogModeToggle s else s
  else if index < 16 then
    if value then
      { s with buttonState := s.buttonState &&& (0xFFFF ^^^ (1 <<< index)) }
    else
      { s with buttonState := s.buttonState ||| (1 <<< index) }
  else s

/-- Modelled from the spec: SetAxisState stores one axis byte. -/
def SetAxisState (s : State) (a : Axis) (v : Nat) : State :=
  { s with axisState := s.axisState.set a v }

/-- GetButtonStateBits returns the raw active-low bitmask (spec section
4.1; header line 70). -/
def GetButtonStateBits (s : State) : Nat := s.buttonState

/-- Modelled from the spec: SetMotorState stores one physical motor
intensity (LargeMotor = 0, SmallMotor = 1 per the header enum). -/
def SetMotorState (s : State) (motor : Nat) (value : Nat) : State :=
  if motor = 0 then { s with motorState := { s.motorState with large := value } }
  else if motor = 1 then { s with motorState := { s.motorState with small := value } }
  else s

/-- Modelled from the spec: delivery of a physical intensity on a logical
rumble channel, applying the configured indirection; unconfigured indices
(-1 on both) default to the identity mapping, slot 0 driving the large
motor and slot 1 the small motor (spec section 4.2; header line 118
declares SetMotorStateForConfigIndex, body not in the sources). -/
def SetMotorStateForConfigIndex (s : State) (index : Int) (value : Nat) : State :=
  let unconfigured :=
    s.rumbleConfigLargeMotorIndex = -1 ∧ s.rumbleConfigSmallMotorIndex = -1
  let largeIndex : Int := if unconfigured then 0 else s.rumbleConfigLargeMotorIndex
  let smallIndex : Int := if unconfigured then 1 else s.rumbleConfigSmallMotorIndex
  if largeIndex = index then SetMotorState s 0 value
  else if smallIndex = index then SetMotorState s 1 value
  else s

/-- Run a sequence of Transfer calls, collecting each (dataOut,
moreBytesExpected) pair. -/
def runTransfers (s : State) (ins : List Nat) : State × List (Nat × Bool) :=
  match ins with
  | [] => (s, [])
  | b :: rest =>
      let r := Transfer s b
      let t := runTransfers r.1 rest
      (t.1, r.2 :: t.2)

/-- The response bytes of a run. -/
def transferOutputs (s : State) (ins : List Nat) : List Nat :=
  (runTransfers s ins).2.map Prod.fst

/-- The moreBytesExpected flags of a run. -/
def transferAcks (s : State) (ins : List Nat) : List Bool :=
  (runTransfers s ins).2.map Prod.snd

/-- The state after a run. -/
def finalState (s : State) (ins : List Nat) : State :=
  (runTransfers s ins).1

/-- Select the device: the Idle to Ready transition of the exchange state
machine (spec section 4.2). -/
def selectDevice (s : State) : State :=
  (Transfer s 0x01).1

/-- A freshly constructed, just selected device. -/
def readyState : State := selectDevice initialState

/-- Serialized form of a Command: its enumerator value. -/
def encodeCmd : Command → Int
  | Command.Idle => 0
  | Command.Ready => 1
  | Command.ReadPad => 2
  | Command.ConfigModeSetMode => 3
  | Command.SetAnalogMode => 4
  | Command.GetAnalogMode => 5
  | Command.Command46 => 6
  | Command.Command47 => 7
  | Command.Command4C => 8
  | Command.GetSetRumble => 9

/-- Parse a serialized Command; unknown values are a version mismatch. -/
def decodeCmd (i : Int) : Option Command :=
  if i = 0 then some Command.Idle
  else if i = 1 then some Command.Ready
  else if i = 2 then some Command.ReadPad
  else if i = 3 then some Command.ConfigModeSetMode
  else if i = 4 then some Command.SetAnalogMode
  else if i = 5 then some Command.GetAnalogMode
  else if i = 6 then some Command.Command46
  else if i = 7 then some Command.Command47
  else if i = 8 then some Command.Command4C
  else if i = 9 then some Command.GetSetRumble
  else none

/-- Serialized form of a Bool. -/
def encodeBool (b : Bool) : Int := if b then 1 else 0

/-- Parse a serialized Bool; other values are a version mismatch. -/
def decodeBool (i : Int) : Option Bool :=
  if i = 0 then some false else if i = 1 then some true else none

/-- Serialized form of the staged analog toggle. -/
def encodeToggle : Option Bool → Int
  | none => 0
  | some false => 1
  | some true => 2

/-- Parse a serialized staged analog toggle. -/
def decodeToggle (i : Int) : Option (Option Bool) :=
  if i = 0 then some none
  else if i = 1 then some (some false)
  else if i = 2 then some (some true)
  else none

/-- Modelled from the spec: the write direction of DoState - the full
instance state in a fixed field order through the ordered-primitive
serializer (spec sections 4.1 and 6; header line 67 declares DoState, body
not in the sources). -/
def serializeState (s : State) : List Int :=
  [encodeCmd s.command, Int.ofNat s.commandStep,
   Int.ofNat s.rxBuffer.b0, Int.ofNat s.rxBuffer.b1, Int.ofNat s.rxBuffer.b2,
   Int.ofNat s.rxBuffer.b3, Int.ofNat s.rxBuffer.b4, Int.ofNat s.rxBuffer.b5,
   Int.ofNat s.rxBuffer.b6, Int.ofNat s.rxBuffer.b7,
   Int.ofNat s.txBuffer.b0, Int.ofNat s.txBuffer.b1, Int.ofNat s.txBuffer.b2,
   Int.ofNat s.txBuffer.b3, Int.ofNat s.txBuffer.b4, Int.ofNat s.txBuffer.b5,
   Int.ofNat s.txBuffer.b6, Int.ofNat s.txBuffer.b7,
   Int.ofNat s.responseLength,
   encodeBool s.analogMode, encodeBool s.analogLocked,
   encodeBool s.dualshockEnabled, encodeBool s.configurationMode,
   Int.ofNat s.rumbleConfig.c0, Int.ofNat s.rumbleConfig.c1,
   Int.ofNat s.rumbleConfig.c2, Int.ofNat s.rumbleConfig.c3,
   Int.ofNat s.rumbleConfig.c4, Int.ofNat s.rumbleConfig.c5,
   s.rumbleConfigLargeMotorIndex, s.rumbleConfigSmallMotorIndex,
   encodeToggle s.analogToggleQueued,
   Int.ofNat s.statusByte, Int.ofNat s.digitalModeExtraHalfwords,
   Int.ofNat s.buttonState,
   Int.ofNat s.axisState.leftX, Int.ofNat s.axisState.leftY,
   Int.ofNat s.axisState.rightX, Int.ofNat s.axisState.rightY,
   Int.ofNat s.motorState.large, Int.ofNat s.motorState.small,
   Int.ofNat s.halfAxisState.h0, Int.ofNat s.halfAxisState.h1,
   Int.ofNat s.halfAxisState.h2, Int.ofNat s.halfAxisState.h3,
   Int.ofNat s.commandParam, encodeBool s.legacyRumbleUnlocked]

/-- Modelled from the spec: the read direction of DoState into the device
dst - the same fixed field order; a stream of the wrong shape is the
recoverable version-mismatch failure (none); when ignoreInputState is
true the live button, axis and half-axis values of dst are left untouched
instead of being restored from the stream (spec section 4.1). -/
def deserializeState (data : List Int) (dst : State) (ignoreInputState : Bool) :
    Option State :=
  match data with
  | d_cmd :: d_step :: d_rx0 :: d_rx1 :: d_rx2 :: d_rx3 :: d_rx4 :: d_rx5 ::
    d_rx6 :: d_rx7 :: d_tx0 :: d_tx1 :: d_tx2 :: d_tx3 :: d_tx4 :: d_tx5 ::
    d_tx6 :: d_tx7 :: d_rlen :: d_am :: d_al :: d_ds :: d_cm :: rest =>
    match rest with
    | [d_rc0, d_rc1, d_rc2, d_rc3, d_rc4, d_rc5, d_li, d_si, d_tog,
       d_sb, d_dh, d_bs, d_axLX, d_axLY, d_axRX, d_axRY, d_mL, d_mS,
       d_ha0, d_ha1, d_ha2, d_ha3, d_cp, d_lr] => do
      let command ← decodeCmd d_cmd
      let analogMode ← decodeBool d_am
      let analogLocked ← decodeBool d_al
      let dualshockEnabled ← decodeBool d_ds
      let configurationMode ← decodeBool d_cm
      let analogToggleQueued ← decodeToggle d_tog
      let legacyRumbleUnlocked ← decodeBool d_lr
      some
        { command := command
          commandStep := d_step.toNat
          rxBuffer := ⟨d_rx0.toNat, d_rx1.toNat, d_rx2.toNat, d_rx3.toNat,
                       d_rx4.toNat, d_rx5.toNat, d_rx6.toNat, d_rx7.toNat⟩
          txBuffer := ⟨d_tx0.toNat, d_tx1.toNat, d_tx2.toNat, d_tx3.toNat,
                       d_tx4.toNat, d_tx5.toNat, d_tx6.toNat, d_tx7.toNat⟩
          responseLength := d_rlen.toNat
          analogMode := analogMode
          analogLocked := analogLocked
          dualshockEnabled := dualshockEnabled
          configurationMode := configurationMode
          axisState :=
            if ignoreInputState then dst.axisState
            else ⟨d_axLX.toNat, d_axLY.toNat, d_axRX.toNat, d_axRY.toNat⟩
          rumbleConfig := ⟨d_rc0.toNat, d_rc1.toNat, d_rc2.toNat,
                           d_rc3.toNat, d_rc4.toNat, d_rc5.toNat⟩
          rumbleConfigLargeMotorIndex := d_li
          rumbleConfigSmallMotorIndex := d_si
          analogToggleQueued := analogToggleQueued
          statusByte := d_sb.toNat
          digitalModeExtraHalfwords := d_dh.toNat
          buttonState := if ignoreInputState then dst.buttonState else d_bs.toNat
          motorState := ⟨d_mL.toNat, d_mS.toNat⟩
          halfAxisState :=
            if ignoreInputState then dst.halfAxisState
            else ⟨d_ha0.toNat, d_ha1.toNat, d_ha2.toNat, d_ha3.toNat⟩
          commandParam := d_cp.toNat
          legacyRumbleUnlocked := legacyRumbleUnlocked }
    | _ => none
  | _ => none

end AnalogController

namespace Achievements

/-- The ordered-primitive serializer seen by Achievements.DoState, modelled
as the log of primitive operations performed on it. -/
structure StateWrapper : Type where
  ops : List Int
deriving DecidableEq, Repr

/-- Reset in builds compiled without achievement support: a no-op
returning true (src/core/achievements.h lines 24-27). -/
def Reset : Bool := true

/-- DoState in builds compiled without achievement support: returns true
and performs no reads or writes on the StateWrapper
(src/core/achievements.h lines 28-31). -/
def DoState (sw : StateWrapper) : StateWrapper × Bool := (sw, true)

/-- IsChallengeModeActive in builds compiled without achievement support:
the constant false (src/core/achievements.h lines 32-35; the declaration
comment says it returns true if features such as save states should be
disabled). -/
def IsChallengeModeActive : Bool := false

end Achievements

namespace AnalogController

/-! Helper lemmas shared by the claim theorems. -/

theorem decodeCmd_encodeCmd (c : Command) : decodeCmd (encodeCmd c) = some c := by
  cases c <;> rfl

theorem decodeBool_encodeBool (b : Bool) : decodeBool (encodeBool b) = some b := by
  cases b <;> rfl

theorem decodeToggle_encodeToggle (o : Option Bool) :
    decodeToggle (encodeToggle o) = some o := by
  rcases o with _ | b
  · rfl
  · cases b <;> rfl

theorem toNat_ofNat (n : Nat) : (Int.ofNat n).toNat = n := rfl

theorem decodeCommandByte_ne_idle (c : Bool) (b : Nat) :
    decodeCommandByte c b ≠ some Command.Idle := by
  unfold decodeCommandByte
  split_ifs <;> simp

theorem decodeCommandByte_ne_ready (c : Bool) (b : Nat) :
    decodeCommandByte c b ≠ some Command.Ready := by
  unfold decodeCommandByte
  split_ifs <;> simp

theorem decodeCommandByte_getSetRumble (c : Bool) (b : Nat) :
    decodeCommandByte c b = some Command.GetSetRumble → c = true := by
  unfold decodeCommandByte
  split_ifs <;> simp_all

theorem one_lt_two_add (x : Nat) : 1 < 2 + x := by omega

/-- C1: for every ReadPad (0x42) exchange the payload after the two
ID/status header bytes is the 16-bit active-low button state, low byte
then high byte, followed, exactly when analogMode is set, by the four axis
bytes in order RightX, RightY, LeftX, LeftY; a digital-mode ReadPad with
no buttons pressed yields [0x41, 0x5A, 0xFF, 0xFF] and an analog-mode
ReadPad with only LeftX at 0xFF yields
[0x73, 0x5A, 0xFF, 0xFF, 0x80, 0x80, 0xFF, 0x80]. -/
theorem readPad_response_correct :
    (∀ s : State, s.command = Command.Ready → s.commandStep = 0 →
      s.statusByte = 0x5A → s.digitalModeExtraHalfwords = 0 →
      transferOutputs s (0x42 :: List.replicate (3 + (if s.analogMode then 4 else 0)) 0) =
        [GetIDByte s, 0x5A, buttonLow s, buttonHigh s] ++
          (if s.analogMode then
            [s.axisState.rightX, s.axisState.rightY, s.axisState.leftX, s.axisState.leftY]
          else [])) ∧
    transferOutputs readyState [0x42, 0, 0, 0] = [0x41, 0x5A, 0xFF, 0xFF] ∧
    transferOutputs
        (selectDevice (SetAxisState { initialState with analogMode := true } Axis.LeftX 0xFF))
        [0x42, 0, 0, 0, 0, 0, 0, 0] =
      [0x73, 0x5A, 0xFF, 0xFF, 0x80, 0x80, 0xFF, 0x80] := by
  refine ⟨?_, by decide, by decide⟩
  intro s h1 h2 h3 h4
  obtain ⟨cmd, step, rx, tx, len, am, al, ds, cm, ax, rc, lmi, smi, atq, sb, dh, bs, ms, ha,
    cpar, lru⟩ := s
  simp only at h1 h2 h3 h4
  subst h1 h2 h3 h4
  cases am <;>
    simp [transferOutputs, runTransfers, Transfer, stepEffect, decodeCommandByte,
      initialTxBuffer, commandPayloadLength, GetResponseNumHalfwords, GetIDByte,
      Buf8.get, Buf8.set, buttonLow, buttonHigh]

/-- C1 witness: the general part of the theorem instantiated at a freshly
selected device. -/
theorem readPad_response_correct_witness :
    (readyState.command = Command.Ready ∧ readyState.commandStep = 0 ∧
      readyState.statusByte = 0x5A ∧ readyState.digitalModeExtraHalfwords = 0) ∧
    transferOutputs readyState
        (0x42 :: List.replicate (3 + (if readyState.analogMode then 4 else 0)) 0) =
      [GetIDByte readyState, 0x5A, buttonLow readyState, buttonHigh readyState] ++
        (if readyState.analogMode then
          [readyState.axisState.rightX, readyState.axisState.rightY,
           readyState.axisState.leftX, readyState.axisState.leftY]
        else []) :=
  ⟨⟨by decide, by decide, by decide, by decide⟩,
   readPad_response_correct.1 readyState (by decide) (by decide) (by decide) (by decide)⟩

/-- C2: in every exchange the byte returned at step 0 is the low ID byte
determined solely by the mode flags (0xF3 in configuration mode, else
0x41 digital or 0x73 analog) and the byte returned at step 1 is the
constant status byte 0x5A, for every command code. -/
theorem id_and_status_bytes :
    (∀ (s : State) (b : Nat), s.command = Command.Ready → s.commandStep = 0 →
      (Transfer s b).2.1 =
          (if s.configurationMode then 0xF3 else if s.analogMode then 0x73 else 0x41) ∧
        (Transfer s b).2.2 = true) ∧
    (∀ (s : State) (b b2 : Nat), s.command = Command.Ready → s.commandStep = 0 →
      s.statusByte = 0x5A → (Transfer (Transfer s b).1 b2).2.1 = 0x5A) := by
  constructor
  · intro s b h1 h2
    obtain ⟨cmd, step, rx, tx, len, am, al, ds, cm, ax, rc, lmi, smi, atq, sb, dh, bs, ms, ha,
      cpar, lru⟩ := s
    simp only at h1 h2
    subst h1 h2
    unfold Transfer
    simp only [Buf8.set]
    split
    next =>
      split <;> simp [GetIDByte]
    next h => simp at h
  · intro s b b2 h1 h2 h3
    obtain ⟨cmd, step, rx, tx, len, am, al, ds, cm, ax, rc, lmi, smi, atq, sb, dh, bs, ms, ha,
      cpar, lru⟩ := s
    simp only at h1 h2 h3
    subst h1 h2 h3
    cases cm
    · rcases hd : decodeCommandByte false b with _ | c
      · simp [Transfer, hd, Buf8.set, Buf8.get, stepEffect]
      · cases c <;>
          simp_all [Transfer, hd, Buf8.set, Buf8.get, stepEffect, initialTxBuffer,
            commandPayloadLength, GetResponseNumHalfwords, one_lt_two_add,
            decodeCommandByte_ne_idle, decodeCommandByte_ne_ready]
    · rcases hd : decodeCommandByte true b with _ | c
      · simp [Transfer, hd, Buf8.set, Buf8.get, stepEffect]
      · cases c <;>
          simp_all [Transfer, hd, Buf8.set, Buf8.get, stepEffect, initialTxBuffer,
            commandPayloadLength, GetResponseNumHalfwords, one_lt_two_add,
            decodeCommandByte_ne_idle, decodeCommandByte_ne_ready]

/-- C3: SetAnalogMode (0x44) inside configuration mode does not change
analogMode immediately - it stages the requested value into
analogToggleQueued, which is committed into analogMode exactly when
configuration mode is exited via ConfigModeSetMode (0x43) with a zero
parameter; two SetAnalogMode commands in one configuration session apply
only the last staged value on exit; SetAnalogMode outside configuration
mode is a silent no-op. -/
theorem setAnalogMode_staged_commit :
    (∀ (s : State) (p : Nat), s.command = Command.Ready → s.commandStep = 0 →
      s.configurationMode = true → p ≤ 1 →
      (finalState s [0x44, 0, p, 0, 0, 0, 0, 0]).analogMode = s.analogMode ∧
      (finalState s [0x44, 0, p, 0, 0, 0, 0, 0]).analogToggleQueued = some (p == 1) ∧
      (finalState s [0x44, 0, p, 0, 0, 0, 0, 0]).configurationMode = true) ∧
    (∀ (s : State) (p1 p2 : Nat), s.command = Command.Ready → s.commandStep = 0 →
      s.configurationMode = true → p1 ≤ 1 → p2 ≤ 1 →
      (finalState
          (selectDevice (ResetTransferState
            (finalState
              (selectDevice (ResetTransferState
                (finalState s [0x44, 0, p1, 0, 0, 0, 0, 0])))
              [0x44, 0, p2, 0, 0, 0, 0, 0])))
          [0x43, 0, 0, 0, 0, 0, 0, 0]).analogMode = (p2 == 1) ∧
      (finalState
          (selectDevice (ResetTransferState
            (finalState
              (selectDevice (ResetTransferState
                (finalState s [0x44, 0, p1, 0, 0, 0, 0, 0])))
              [0x44, 0, p2, 0, 0, 0, 0, 0])))
          [0x43, 0, 0, 0, 0, 0, 0, 0]).analogToggleQueued = none ∧
      (finalState
          (selectDevice (ResetTransferState
            (finalState
              (selectDevice (ResetTransferState
                (finalState s [0x44, 0, p1, 0, 0, 0, 0, 0])))
              [0x44, 0, p2, 0, 0, 0, 0, 0])))
          [0x43, 0, 0, 0, 0, 0, 0, 0]).configurationMode = false) ∧
    (∀ (s : State) (p : Nat), s.command = Command.Ready → s.commandStep = 0 →
      s.configurationMode = false →
      (finalState s [0x44, 0, p]).analogMode = s.analogMode ∧
      (finalState s [0x44, 0, p]).analogToggleQueued = s.analogToggleQueued ∧
      (finalState s [0x44, 0, p]).configurationMode = false ∧
      (finalState s [0x44, 0, p]).analogLocked = s.analogLocked ∧
      (finalState s [0x44, 0, p]).buttonState = s.buttonState ∧
      (finalState s [0x44, 0, p]).axisState = s.axisState ∧
      (finalState s [0x44, 0, p]).rumbleConfig = s.rumbleConfig ∧
      (finalState s [0x44, 0, p]).rumbleConfigLargeMotorIndex =
        s.rumbleConfigLargeMotorIndex ∧
      (finalState s [0x44, 0, p]).rumbleConfigSmallMotorIndex =
        s.rumbleConfigSmallMotorIndex ∧
      (finalState s [0x44, 0, p]).motorState = s.motorState) := by
  refine ⟨?_, ?_, ?_⟩
  · intro s p h1 h2 h3 hp
    obtain ⟨cmd, step, rx, tx, len, am, al, ds, cm, ax, rc, lmi, smi, atq, sb, dh, bs, ms, ha,
      cpar, lru⟩ := s
    simp only at h1 h2 h3
    subst h1 h2 h3
    simp [finalState, runTransfers, Transfer, stepEffect, decodeCommandByte,
      initialTxBuffer, commandPayloadLength, GetResponseNumHalfwords, GetIDByte,
      Buf8.get, Buf8.set, hp]
  · intro s p1 p2 h1 h2 h3 hp1 hp2
    obtain ⟨cmd, step, rx, tx, len, am, al, ds, cm, ax, rc, lmi, smi, atq, sb, dh, bs, ms, ha,
      cpar, lru⟩ := s
    simp only at h1 h2 h3
    subst h1 h2 h3
    refine ⟨?_, ?_, ?_⟩ <;>
      simp [finalState, runTransfers, Transfer, stepEffect, decodeCommandByte,
        initialTxBuffer, commandPayloadLength, GetResponseNumHalfwords, GetIDByte,
        Buf8.get, Buf8.set, selectDevice, ResetTransferState, Buf8.zero, hp1, hp2]
  · intro s p h1 h2 h3
    obtain ⟨cmd, step, rx, tx, len, am, al, ds, cm, ax, rc, lmi, smi, atq, sb, dh, bs, ms, ha,
      cpar, lru⟩ := s
    simp only at h1 h2 h3
    subst h1 h2 h3
    refine ⟨?_, ?_, ?_, ?_, ?_, ?_, ?_, ?_, ?_, ?_⟩ <;>
      simp [finalState, runTransfers, Transfer, stepEffect, decodeCommandByte,
        Buf8.get, Buf8.set]

/-- C5: the total response length of a completed exchange is exactly the 2
fixed ID/status bytes plus the command-specific payload length, for every
command class; for ReadPad the payload is
2 + 4 * analogMode + 2 * digitalModeExtraHalfwords bytes, so entering
configuration mode, staging analog with SetAnalogMode(0x44, 0x01), and
exiting makes the ReadPad response exactly 4 bytes longer. The
moreBytesExpected flags confirm the exchange completes after exactly that
many bytes. -/
theorem response_length_correct :
    (∀ s : State, s.command = Command.Ready → s.commandStep = 0 →
      ((Transfer s 0x42).1).responseLength =
        2 + (2 + (if s.analogMode then 4 else 0) + 2 * s.digitalModeExtraHalfwords)) ∧
    (∀ s : State, s.command = Command.Ready → s.commandStep = 0 →
      s.digitalModeExtraHalfwords = 0 →
      transferAcks s (0x42 :: List.replicate (3 + (if s.analogMode then 4 else 0)) 0) =
        List.replicate (3 + (if s.analogMode then 4 else 0)) true ++ [false]) ∧
    (∀ s : State, s.command = Command.Ready → s.commandStep = 0 →
      s.digitalModeExtraHalfwords = 0 →
      ((Transfer s 0x43).1).responseLength =
          2 + (if s.configurationMode then 6
               else 2 + (if s.analogMode then 4 else 0) + 2 * s.digitalModeExtraHalfwords) ∧
        transferAcks s
            (0x43 :: List.replicate
              (1 + (if s.configurationMode then 6
                    else 2 + (if s.analogMode then 4 else 0))) 0) =
          List.replicate
              (1 + (if s.configurationMode then 6
                    else 2 + (if s.analogMode then 4 else 0))) true ++ [false]) ∧
    (∀ (s : State) (b : Nat), s.command = Command.Ready → s.commandStep = 0 →
      s.configurationMode = true → b ∈ [0x44, 0x45, 0x46, 0x47, 0x4C, 0x4D] →
      ((Transfer s b).1).responseLength = 8 ∧
        transferAcks s (b :: List.replicate 7 0) = List.replicate 7 true ++ [false]) ∧
    (finalState (selectDevice (ResetTransferState
        (finalState (selectDevice (ResetTransferState
          (finalState (selectDevice (ResetTransferState
            (finalState (selectDevice (ResetTransferState
              (finalState readyState [0x42, 0, 0, 0])))
              [0x43, 0, 1, 0])))
            [0x44, 0, 1, 0, 0, 0, 0, 0])))
          [0x43, 0, 0, 0, 0, 0, 0, 0])))
        [0x42, 0, 0, 0, 0, 0, 0, 0]).responseLength =
      (finalState readyState [0x42, 0, 0, 0]).responseLength + 4 := by
  refine ⟨?_, ?_, ?_, ?_, by decide⟩
  · intro s h1 h2
    obtain ⟨cmd, step, rx, tx, len, am, al, ds, cm, ax, rc, lmi, smi, atq, sb, dh, bs, ms, ha,
      cpar, lru⟩ := s
    simp only at h1 h2
    subst h1 h2
    cases am <;>
      simp [Transfer, decodeCommandByte, commandPayloadLength, GetResponseNumHalfwords,
        Buf8.set] <;> omega
  · intro s h1 h2 h4
    obtain ⟨cmd, step, rx, tx, len, am, al, ds, cm, ax, rc, lmi, smi, atq, sb, dh, bs, ms, ha,
      cpar, lru⟩ := s
    simp only at h1 h2 h4
    subst h1 h2 h4
    cases am <;>
      simp [transferAcks, runTransfers, Transfer, stepEffect, decodeCommandByte,
        initialTxBuffer, commandPayloadLength, GetResponseNumHalfwords, Buf8.get, Buf8.set]
  · intro s h1 h2 h4
    obtain ⟨cmd, step, rx, tx, len, am, al, ds, cm, ax, rc, lmi, smi, atq, sb, dh, bs, ms, ha,
      cpar, lru⟩ := s
    simp only at h1 h2 h4
    subst h1 h2 h4
    cases cm <;> cases am <;> rcases atq with _ | v <;>
      refine ⟨?_, ?_⟩ <;>
      simp [transferAcks, runTransfers, Transfer, stepEffect, decodeCommandByte,
        initialTxBuffer, commandPayloadLength, GetResponseNumHalfwords, Buf8.get, Buf8.set]
  · intro s b h1 h2 h3 hb
    obtain ⟨cmd, step, rx, tx, len, am, al, ds, cm, ax, rc, lmi, smi, atq, sb, dh, bs, ms, ha,
      cpar, lru⟩ := s
    simp only at h1 h2 h3
    subst h1 h2 h3
    simp only [List.mem_cons, List.not_mem_nil, or_false] at hb
    rcases hb with rfl | rfl | rfl | rfl | rfl | rfl <;>
      refine ⟨?_, ?_⟩ <;>
      simp [transferAcks, runTransfers, Transfer, stepEffect, decodeCommandByte,
        initialTxBuffer, commandPayloadLength, GetResponseNumHalfwords, Buf8.get, Buf8.set]

/-- C5 witness: the ReadPad length formula and completion pattern
instantiated at a freshly selected device. -/
theorem response_length_correct_witness :
    (readyState.command = Command.Ready ∧ readyState.commandStep = 0 ∧
      readyState.digitalModeExtraHalfwords = 0) ∧
    ((Transfer readyState 0x42).1).responseLength =
        2 + (2 + (if readyState.analogMode then 4 else 0) +
          2 * readyState.digitalModeExtraHalfwords) ∧
    transferAcks readyState
        (0x42 :: List.replicate (3 + (if readyState.analogMode then 4 else 0)) 0) =
      List.replicate (3 + (if readyState.analogMode then 4 else 0)) true ++ [false] :=
  ⟨⟨by decide, by decide, by decide⟩,
   response_length_correct.1 readyState (by decide) (by decide),
   response_length_correct.2.1 readyState (by decide) (by decide) (by decide)⟩

/-- C3 witness: the two-stage session instantiated at a configuration-mode
device staging digital then analog. -/
theorem setAnalogMode_staged_commit_witness :
    ((selectDevice { initialState with configurationMode := true }).command =
        Command.Ready ∧
      (selectDevice { initialState with configurationMode := true }).commandStep = 0 ∧
      (selectDevice { initialState with configurationMode := true }).configurationMode =
        true) ∧
    (finalState
        (selectDevice (ResetTransferState
          (finalState
            (selectDevice (ResetTransferState
              (finalState (selectDevice { initialState with configurationMode := true })
                [0x44, 0, 0, 0, 0, 0, 0, 0])))
            [0x44, 0, 1, 0, 0, 0, 0, 0])))
        [0x43, 0, 0, 0, 0, 0, 0, 0]).analogMode = (1 == 1) :=
  ⟨⟨by decide, by decide, by decide⟩,
   (setAnalogMode_staged_commit.2.1 (selectDevice { initialState with configurationMode := true })
     0 1 (by decide) (by decide) (by decide) (by decide) (by decide)).1⟩

/-- C6: a GetSetRumble (0x4D) parameter byte arriving at step k stores
into rumbleConfig slot k-2, the sentinel 0x00 assigning the large-motor
index to that slot and 0x01 the small-motor index; while both indices are
unconfigured (-1) the motor mapping defaults to identity, so after an
identity assignment a rumble intensity 0xFF on the large channel yields a
large motor intensity of 0xFF; and rumbleConfig is never mutated while
configurationMode is false (GetSetRumble is reachable only inside
configuration mode, an invariant established initially and preserved by
every transfer and deselect). -/
theorem getSetRumble_correct :
    (∀ (s : State) (p : Nat), s.command = Command.GetSetRumble →
      2 ≤ s.commandStep → s.commandStep ≤ 7 → s.commandStep < s.responseLength →
      (Transfer s p).1.rumbleConfig = s.rumbleConfig.set (s.commandStep - 2) p ∧
        (Transfer s p).1.rumbleConfigLargeMotorIndex =
          (if p = 0 then Int.ofNat (s.commandStep - 2)
           else s.rumbleConfigLargeMotorIndex) ∧
        (Transfer s p).1.rumbleConfigSmallMotorIndex =
          (if p = 1 then Int.ofNat (s.commandStep - 2)
           else s.rumbleConfigSmallMotorIndex)) ∧
    (∀ (s : State) (v : Nat), s.rumbleConfigLargeMotorIndex = -1 →
      s.rumbleConfigSmallMotorIndex = -1 →
      (SetMotorStateForConfigIndex s 0 v).motorState.large = v ∧
        (SetMotorStateForConfigIndex s 1 v).motorState.small = v) ∧
    ((finalState (selectDevice { initialState with configurationMode := true })
        [0x4D, 0, 0x00, 0x01, 0xFF, 0xFF, 0xFF, 0xFF]).rumbleConfigLargeMotorIndex = 0 ∧
      (finalState (selectDevice { initialState with configurationMode := true })
        [0x4D, 0, 0x00, 0x01, 0xFF, 0xFF, 0xFF, 0xFF]).rumbleConfigSmallMotorIndex = 1 ∧
      (SetMotorStateForConfigIndex
        (finalState (selectDevice { initialState with configurationMode := true })
          [0x4D, 0, 0x00, 0x01, 0xFF, 0xFF, 0xFF, 0xFF]) 0 0xFF).motorState.large = 0xFF) ∧
    (initialState.command = Command.GetSetRumble → initialState.configurationMode = true) ∧
    (∀ (s : State) (d : Nat),
      (s.command = Command.GetSetRumble → s.configurationMode = true) →
      (Transfer s d).1.command = Command.GetSetRumble →
        (Transfer s d).1.configurationMode = true) ∧
    (∀ s : State, (ResetTransferState s).command = Command.GetSetRumble →
      (ResetTransferState s).configurationMode = true) ∧
    (∀ (s : State) (d : Nat),
      (s.command = Command.GetSetRumble → s.configurationMode = true) →
      s.configurationMode = false → (Transfer s d).1.rumbleConfig = s.rumbleConfig) ∧
    (∀ s : State, (ResetTransferState s).rumbleConfig = s.rumbleConfig) := by
  refine ⟨?_, ?_, by decide, by decide, ?_, ?_, ?_, fun s => rfl⟩
  · intro s p h1 h2 h3 h4
    obtain ⟨cmd, step, rx, tx, len, am, al, ds, cm, ax, rc, lmi, smi, atq, sb, dh, bs, ms, ha,
      cpar, lru⟩ := s
    simp only at h1 h2 h3 h4
    subst h1
    by_cases hp0 : p = 0 <;> by_cases hp1 : p = 1 <;>
      simp [Transfer, stepEffect, Buf8.set, h2, h3, h4, hp0, hp1]
  · intro s v hl hs
    simp [SetMotorStateForConfigIndex, SetMotorState, hl, hs]
  · intro s d hinv hcmd
    obtain ⟨cmd, step, rx, tx, len, am, al, ds, cm, ax, rc, lmi, smi, atq, sb, dh, bs, ms, ha,
      cpar, lru⟩ := s
    cases cmd
    case Ready =>
      by_cases hstep : step = 0
      · subst hstep
        rcases hd : decodeCommandByte cm d with _ | c
        · simp [Transfer, hd, Buf8.set] at hcmd
        · simp [Transfer, hd, Buf8.set] at hcmd ⊢
          subst hcmd
          exact decodeCommandByte_getSetRumble cm d hd
      · simp [Transfer, hstep, Buf8.set, stepEffect] at hcmd ⊢
        split at hcmd <;> simp_all
    case GetSetRumble =>
      have hcm : cm = true := hinv rfl
      subst hcm
      simp [Transfer, stepEffect, Buf8.set]
      split_ifs <;> simp
    case ConfigModeSetMode =>
      rcases atq with _ | v <;>
        (simp [Transfer, stepEffect, Buf8.set] at hcmd; split_ifs at hcmd)
    all_goals
      (simp [Transfer, stepEffect, Buf8.set] at hcmd; split_ifs at hcmd)
  · intro s h
    simp [ResetTransferState] at h
  · intro s d hinv hc
    obtain ⟨cmd, step, rx, tx, len, am, al, ds, cm, ax, rc, lmi, smi, atq, sb, dh, bs, ms, ha,
      cpar, lru⟩ := s
    simp only at hc
    subst hc
    cases cmd
    case GetSetRumble => exact absurd (hinv rfl) (by simp)
    case Ready =>
      by_cases hstep : step = 0
      · subst hstep
        rcases hd : decodeCommandByte false d with _ | c <;>
          simp [Transfer, hd, Buf8.set]
      · simp [Transfer, hstep, Buf8.set, stepEffect]
        split_ifs <;> simp
    case ConfigModeSetMode =>
      rcases atq with _ | v <;>
        (simp [Transfer, stepEffect, Buf8.set]; split_ifs <;> simp)
    all_goals
      (simp [Transfer, stepEffect, Buf8.set]; split_ifs <;> simp)

/-- C6 witness: the per-step storage rule instantiated at the first
parameter byte of a concrete GetSetRumble exchange, plus the identity
default at the fresh device. -/
theorem getSetRumble_correct_witness :
    ((finalState (selectDevice { initialState with configurationMode := true })
        [0x4D, 0]).command = Command.GetSetRumble ∧
      2 ≤ (finalState (selectDevice { initialState with configurationMode := true })
        [0x4D, 0]).commandStep ∧
      (finalState (selectDevice { initialState with configurationMode := true })
        [0x4D, 0]).commandStep ≤ 7 ∧
      (finalState (selectDevice { initialState with configurationMode := true })
          [0x4D, 0]).commandStep <
        (finalState (selectDevice { initialState with configurationMode := true })
          [0x4D, 0]).responseLength ∧
      initialState.rumbleConfigLargeMotorIndex = -1 ∧
      initialState.rumbleConfigSmallMotorIndex = -1) ∧
    (Transfer (finalState (selectDevice { initialState with configurationMode := true })
        [0x4D, 0]) 0).1.rumbleConfig =
      (finalState (selectDevice { initialState with configurationMode := true })
        [0x4D, 0]).rumbleConfig.set
        ((finalState (selectDevice { initialState with configurationMode := true })
          [0x4D, 0]).commandStep - 2) 0 ∧
    (SetMotorStateForConfigIndex initialState 0 0xFF).motorState.large = 0xFF :=
  ⟨⟨by decide, by decide, by decide, by decide, by decide, by decide⟩,
   (getSetRumble_correct.1
     (finalState (selectDevice { initialState with configurationMode := true }) [0x4D, 0]) 0
     (by decide) (by decide) (by decide) (by decide)).1,
   (getSetRumble_correct.2.1 initialState 0xFF (by decide) (by decide)).1⟩

/-- C7: any command byte that is not recognized still produces the
well-formed two-byte response - the ID byte at step 0 then the 0x5A status
byte at step 1 - with moreBytesExpected false after step 1; the exchange
never aborts and the transfer function is total by construction. -/
theorem unknown_command_minimal_response :
    ∀ (s : State) (b x : Nat), s.command = Command.Ready → s.commandStep = 0 →
      s.statusByte = 0x5A → decodeCommandByte s.configurationMode b = none →
      transferOutputs s [b, x] = [GetIDByte s, 0x5A] ∧
        transferAcks s [b, x] = [true, false] := by
  intro s b x h1 h2 h3 hd
  obtain ⟨cmd, step, rx, tx, len, am, al, ds, cm, ax, rc, lmi, smi, atq, sb, dh, bs, ms, ha,
    cpar, lru⟩ := s
  simp only at h1 h2 h3 hd
  subst h1 h2 h3
  simp [transferOutputs, transferAcks, runTransfers, Transfer, hd, stepEffect,
    Buf8.get, Buf8.set, GetIDByte]

/-- C7 witness: the minimal response at a freshly selected device fed the
unrecognized command byte 0x99. -/
theorem unknown_command_minimal_response_witness :
    (readyState.command = Command.Ready ∧ readyState.commandStep = 0 ∧
      readyState.statusByte = 0x5A ∧
      decodeCommandByte readyState.configurationMode 0x99 = none) ∧
    transferOutputs readyState [0x99, 0] = [GetIDByte readyState, 0x5A] ∧
    transferAcks readyState [0x99, 0] = [true, false] :=
  ⟨⟨by decide, by decide, by decide, by decide⟩,
   unknown_command_minimal_response readyState 0x99 0 (by decide) (by decide)
     (by decide) (by decide)⟩

/-- C8: ResetTransferState sets command to Idle, commandStep to 0, and
clears the rx/tx buffers and the response length, leaving every other
field - buttons, axes, modes, staged toggle, rumble configuration and
motor state - unchanged; and commandStep is brought back to 0 by this
deselect operation and by no other modelled operation (Transfer never
returns it to 0, and the input setters never touch it). -/
theorem resetTransferState_correct :
    (∀ s : State,
      (ResetTransferState s).command = Command.Idle ∧
        (ResetTransferState s).commandStep = 0 ∧
        (ResetTransferState s).rxBuffer = Buf8.zero ∧
        (ResetTransferState s).txBuffer = Buf8.zero ∧
        (ResetTransferState s).responseLength = 0 ∧
        (ResetTransferState s).analogMode = s.analogMode ∧
        (ResetTransferState s).analogLocked = s.analogLocked ∧
        (ResetTransferState s).dualshockEnabled = s.dualshockEnabled ∧
        (ResetTransferState s).configurationMode = s.configurationMode ∧
        (ResetTransferState s).axisState = s.axisState ∧
        (ResetTransferState s).rumbleConfig = s.rumbleConfig ∧
        (ResetTransferState s).rumbleConfigLargeMotorIndex =
          s.rumbleConfigLargeMotorIndex ∧
        (ResetTransferState s).rumbleConfigSmallMotorIndex =
          s.rumbleConfigSmallMotorIndex ∧
        (ResetTransferState s).analogToggleQueued = s.analogToggleQueued ∧
        (ResetTransferState s).statusByte = s.statusByte ∧
        (ResetTransferState s).buttonState = s.buttonState ∧
        (ResetTransferState s).motorState = s.motorState ∧
        (ResetTransferState s).halfAxisState = s.halfAxisState) ∧
    (∀ (s : State) (d : Nat), s.commandStep ≠ 0 → (Transfer s d).1.commandStep ≠ 0) ∧
    (∀ (s : State) (i : Nat) (v : Bool), (SetBindState s i v).commandStep = s.commandStep) ∧
    (∀ (s : State) (a : Axis) (v : Nat), (SetAxisState s a v).commandStep = s.commandStep) ∧
    (∀ (s : State) (i : Int) (v : Nat),
      (SetMotorStateForConfigIndex s i v).commandStep = s.commandStep) := by
  refine ⟨?_, ?_, ?_, ?_, ?_⟩
  · intro s
    exact ⟨rfl, rfl, rfl, rfl, rfl, rfl, rfl, rfl, rfl, rfl, rfl, rfl, rfl, rfl, rfl,
      rfl, rfl, rfl⟩
  · intro s d h
    obtain ⟨cmd, step, rx, tx, len, am, al, ds, cm, ax, rc, lmi, smi, atq, sb, dh, bs, ms, ha,
      cpar, lru⟩ := s
    simp only at h
    cases cmd
    case ConfigModeSetMode =>
      rcases atq with _ | v <;>
        (simp [Transfer, stepEffect, Buf8.set]; split_ifs <;> simp [h])
    all_goals
      (simp [Transfer, stepEffect, Buf8.set, h]; try (split_ifs <;> simp [h]))
  · intro s i v
    unfold SetBindState ProcessAnalogModeToggle
    split_ifs <;> rfl
  · intro s a v
    rfl
  · intro s i v
    simp only [SetMotorStateForConfigIndex, SetMotorState]
    split_ifs <;> rfl

/-- C8 witness: the non-reset part instantiated at a device one byte into
an exchange, whose commandStep is 1. -/
theorem resetTransferState_correct_witness :
    (Transfer readyState 0x42).1.commandStep ≠ 0 ∧
    (Transfer (Transfer readyState 0x42).1 0).1.commandStep ≠ 0 :=
  ⟨by decide,
   resetTransferState_correct.2.1 (Transfer readyState 0x42).1 0 (by decide)⟩

/-- C9: the controller exposes 17 bindable buttons (indices 0 through 16,
Analog being 16) while the button state is a 16-bit active-low mask over
buttons 0 through 15 only; binding the Analog toggle never changes
GetButtonStateBits - it goes through the mode-toggle path - and every
SetBindState keeps the mask inside 16 bits. -/
theorem analog_binding_no_button_change :
    Fintype.card Button = 17 ∧
    Button.toIndex Button.Analog = 16 ∧
    (∀ (s : State) (v : Bool),
      GetButtonStateBits (SetBindState s (Button.toIndex Button.Analog) v) =
        GetButtonStateBits s) ∧
    (∀ (s : State) (i : Nat) (v : Bool), s.buttonState < 65536 →
      (SetBindState s i v).buttonState < 65536) := by
  refine ⟨by decide, rfl, ?_, ?_⟩
  · intro s v
    simp only [SetBindState, ProcessAnalogModeToggle, GetButtonStateBits, Button.toIndex]
    split_ifs <;> rfl
  · intro s i v h
    have hpow : (65536 : Nat) = 2 ^ 16 := by norm_num
    unfold SetBindState ProcessAnalogModeToggle
    split_ifs with h1 h2 h3 h4
    · exact h
    · exact h
    · exact h
    · have hy : (1 <<< i) < 2 ^ 16 := by
        rw [Nat.shiftLeft_eq, one_mul]
        exact Nat.pow_lt_pow_right (by omega) (by omega)
      have hx : (0xFFFF : Nat) < 2 ^ 16 := by norm_num
      calc s.buttonState &&& (0xFFFF ^^^ (1 <<< i)) ≤ 0xFFFF ^^^ (1 <<< i) :=
          Nat.and_le_right
        _ < 2 ^ 16 := Nat.xor_lt_two_pow hx hy
        _ = 65536 := by norm_num
    · have hy : (1 <<< i) < 2 ^ 16 := by
        rw [Nat.shiftLeft_eq, one_mul]
        exact Nat.pow_lt_pow_right (by omega) (by omega)
      calc s.buttonState ||| (1 <<< i) < 2 ^ 16 :=
          Nat.or_lt_two_pow (hpow ▸ h) hy
        _ = 65536 := by norm_num
    · exact h

/-- C9 witness: pressing the Analog binding on the fresh device leaves the
button bits unchanged, and pressing button 0 keeps the mask 16-bit. -/
theorem analog_binding_no_button_change_witness :
    initialState.buttonState < 65536 ∧
    GetButtonStateBits (SetBindState initialState (Button.toIndex Button.Analog) true) =
      GetButtonStateBits initialState ∧
    (SetBindState initialState 0 true).buttonState < 65536 :=
  ⟨by decide,
   analog_binding_no_button_change.2.2.1 initialState true,
   analog_binding_no_button_change.2.2.2 initialState 0 true (by decide)⟩

/-- C4: writing the device state with DoState and reading the stream back
into a freshly constructed device reproduces the identical state; when the
read ignores input state, the live button, axis and half-axis values of
the destination are left untouched instead of being restored from the
stream. -/
theorem doState_roundTrip :
    (∀ src : State,
      deserializeState (serializeState src) initialState false = some src) ∧
    (∀ src : State,
      deserializeState (serializeState src) initialState true =
        some { src with buttonState := initialState.buttonState,
                        axisState := initialState.axisState,
                        halfAxisState := initialState.halfAxisState }) := by
  constructor <;>
    (intro src
     cases src
     simp [serializeState, deserializeState, decodeCmd_encodeCmd, decodeBool_encodeBool,
       decodeToggle_encodeToggle, toNat_ofNat])

/-- C2 witness: both parts instantiated at a freshly selected device and
the ReadPad command byte. -/
theorem id_and_status_bytes_witness :
    (readyState.command = Command.Ready ∧ readyState.commandStep = 0 ∧
      readyState.statusByte = 0x5A) ∧
    (Transfer readyState 0x42).2.1 =
        (if readyState.configurationMode then 0xF3
         else if readyState.analogMode then 0x73 else 0x41) ∧
    (Transfer (Transfer readyState 0x42).1 0).2.1 = 0x5A :=
  ⟨⟨by decide, by decide, by decide⟩,
   (id_and_status_bytes.1 readyState 0x42 (by decide) (by decide)).1,
   id_and_status_bytes.2 readyState 0x42 0 (by decide) (by decide) (by decide)⟩

end AnalogController

/-- C10: in builds compiled without achievement support, Achievements.Reset
and Achievements.DoState return true for every input, DoState performs no
reads or writes on the StateWrapper, and IsChallengeModeActive is the
constant false, so challenge-mode policy can never disable save states in
such builds. -/
theorem achievements_noop_build :
    Achievements.Reset = true ∧
    (∀ sw : Achievements.StateWrapper,
      Achievements.DoState sw = (sw, true) ∧ (Achievements.DoState sw).1.ops = sw.ops) ∧
    Achievements.IsChallengeModeActive = false :=
  ⟨rfl, fun _ => ⟨rfl, rfl⟩, rfl⟩
